import Mathlib

/-!
Shallow embedding of `src/index.py` (class `SolanaStakingAnalyzer`), a Solana
staking returns and validator-ranking analyzer, together with theorems settling
the specification claims about it.

Modelling conventions:
* Python `float` arithmetic is embedded as exact arithmetic: `ℚ` for the
  purely rational components (`calculate_apy`, the validator ranker) and `ℝ`
  for `calculate_staking_returns`, whose compound-interest formula uses a real
  power (`**` on floats, embedded as `Real.rpow`).
* The outbound HTTP calls are modelled by an environment value holding the
  data the collaborators would return; the `try/except → default` wrappers of
  the source become `Option.getD`.
* Python's `ZeroDivisionError` (raised by `x / 0.0`) is modelled by returning
  `Except.error`; the only division by a non-constant in the analyzed code is
  the ROI division in `calculate_staking_returns`.
-/

/-- A JSON field value as seen by `pd.to_numeric(..., errors='coerce')`:
either a numeric value, or some non-numeric value (string, null, ...) that
the coercion turns into NaN. -/
inductive PyVal where
  | num (x : ℚ)
  | nonNum
deriving DecidableEq, Repr

/-- Value of a validator-record field after `pd.to_numeric(df[col], errors='coerce')`
(line 112 of `src/index.py`): `none` models NaN, which arises both from a key
absent from the record's dict and from a non-numeric value. -/
def toNumeric : Option PyVal → Option ℚ
  | some (.num x) => some x
  | some .nonNum => none
  | none => none

/-- A validator record as fetched by `get_validators`: a JSON dict whose keys
relevant to ranking are `commission`, `apy` and `creditScore`, each possibly
absent (`none`) or present with a numeric or non-numeric value. The `name`
field stands for the identity-carrying rest of the dict. -/
structure ValidatorRecord where
  name : String := ""
  commission : Option PyVal := none
  apy : Option PyVal := none
  creditScore : Option PyVal := none
deriving DecidableEq, Repr

/-- The score computed at lines 117-121 of `src/index.py`:
`df['apy'] * 0.4 + (100 - df['commission']) * 0.3 + df['creditScore'] * 0.3`.
Arithmetic on NaN (here `none`) propagates NaN, so a record with any of the
three fields missing or non-numeric gets score `none`. -/
def score (r : ValidatorRecord) : Option ℚ :=
  match toNumeric r.apy, toNumeric r.commission, toNumeric r.creditScore with
  | some a, some c, some s => some (a * 0.4 + (100 - c) * 0.3 + s * 0.3)
  | _, _, _ => none

/-- Insert `x` into a list in descending key order: `x` is placed before the
first element whose key is strictly smaller, hence after all earlier elements
with keys greater than or equal to its own. -/
def insertDesc (key : α → ℚ) (x : α) : List α → List α
  | [] => [x]
  | y :: ys => if key y < key x then x :: y :: ys else y :: insertDesc key x ys

/-- Descending insertion sort by a rational key. This models the non-NaN part
of `df.sort_values('score', ascending=False)` (line 124 of `src/index.py`).
The source sorts with numpy's default quicksort, which fixes no order between
equal keys; this model is one correct descending sort, agreeing with the
source on every input with pairwise-distinct keys. -/
def insertionSortDesc (key : α → ℚ) : List α → List α
  | [] => []
  | x :: xs => insertDesc key x (insertionSortDesc key xs)

/-- The ranker `find_optimal_validators` of `src/index.py` (lines 98-131), as a
function of the validator list the internal `get_validators` call fetched and
of `top_n`. An empty fetch gives an empty DataFrame, hence `[]`; if any of the
three columns `commission`, `apy`, `creditScore` is absent from every record
the required-columns check fails, hence `[]`; otherwise every record gets a
score (NaN, modelled `none`, when a field is missing or non-numeric),
`sort_values('score', ascending=False)` orders scored rows descending with
NaN rows last (`na_position='last'`, NaN rows are kept, not dropped), and
`.head(top_n)` keeps the first `top_n` rows. -/
def find_optimal_validators (validators : List ValidatorRecord) (top_n : ℕ) :
    List (ValidatorRecord × Option ℚ) :=
  if validators.isEmpty then []
  else if (validators.any fun r => r.commission.isSome) &&
          (validators.any fun r => r.apy.isSome) &&
          (validators.any fun r => r.creditScore.isSome) then
    let rows := validators.map fun r => (r, score r)
    let scored := rows.filter fun p => p.2.isSome
    let nans := rows.filter fun p => p.2.isNone
    (insertionSortDesc (fun p => (p.2.getD 0 : ℚ)) scored ++ nans).take top_n
  else []

/-- The APY calculator `calculate_apy` of `src/index.py` (lines 62-70):
net inflation scaled by the fixed 80% stake-participation constant, as a
percentage. -/
def calculate_apy (inflation_rate : ℚ) (validator_commission : ℚ) : ℚ :=
  let net_inflation := inflation_rate * (1 - validator_commission)
  let stake_participation_rate := (0.8 : ℚ)
  let estimated_apy := net_inflation / stake_participation_rate
  estimated_apy * 100

/-- The external world visible to the analyzer: what the CoinGecko price
endpoint would yield. `none` models any failure of the HTTP call or of the
JSON field lookups, which `get_current_sol_price` turns into the default
`0.0`. -/
structure PriceEnv where
  solPriceResponse : Option ℝ

/-- Model of `get_current_sol_price` (lines 23-37 of `src/index.py`): the
fetched `data["solana"]["usd"]` on success, `0.0` on any exception. -/
noncomputable def get_current_sol_price (env : PriceEnv) : ℝ :=
  env.solPriceResponse.getD 0

/-- The dict returned by `calculate_staking_returns` (lines 89-96 of
`src/index.py`). -/
structure ReturnsProjection where
  initial_sol : ℝ
  final_sol : ℝ
  sol_earned : ℝ
  current_value_usd : ℝ
  projected_value_usd : ℝ
  roi_percentage : ℝ

open Classical in
/-- Model of `calculate_staking_returns` (lines 72-96 of `src/index.py`).
The function fetches the current price itself from the environment (line 74);
the price is not a parameter of the Python function. The compound-interest
power `**` on floats is embedded as `Real.rpow`. The only division whose
denominator is not a nonzero literal is the ROI division
`sol_earned / sol_amount` at line 95; Python raises `ZeroDivisionError` there
when `sol_amount` is zero, modelled by `Except.error`, so no NaN or infinite
result is ever returned. -/
noncomputable def calculate_staking_returns (env : PriceEnv) (sol_amount : ℝ)
    (apy : ℝ) (time_period_days : ℤ) : Except String ReturnsProjection :=
  let current_sol_price := get_current_sol_price env
  let apy_decimal := apy / 100
  let time_period_years := (time_period_days : ℝ) / 365
  let compounds_per_year : ℝ := 365
  let final_sol :=
    sol_amount * (1 + apy_decimal / compounds_per_year) ^ (compounds_per_year * time_period_years)
  let sol_earned := final_sol - sol_amount
  let current_value_usd := sol_amount * current_sol_price
  let projected_value_usd := final_sol * current_sol_price
  if sol_amount = 0 then
    Except.error "ZeroDivisionError: float division by zero"
  else
    Except.ok
      { initial_sol := sol_amount
        final_sol := final_sol
        sol_earned := sol_earned
        current_value_usd := current_value_usd
        projected_value_usd := projected_value_usd
        roi_percentage := sol_earned / sol_amount * 100 }

/-- The final amount as the specification writes it:
`final = principal × (1 + (apy_percentage/100)/365)^(365 × (horizon_days/365))`.
Stated separately so the claims can compare the code's record against the
spec's formula. -/
noncomputable def spec_final_amount (p a : ℝ) (d : ℤ) : ℝ :=
  p * (1 + a / 100 / 365) ^ ((365 : ℝ) * ((d : ℝ) / 365))

/- ### Helper lemmas about the descending insertion sort and filters -/

theorem length_insertDesc {α : Type*} (key : α → ℚ) (x : α) (l : List α) :
    (insertDesc key x l).length = l.length + 1 := by
  induction l with
  | nil => rfl
  | cons y ys ih =>
    simp only [insertDesc]
    split
    · simp
    · simp [ih]

theorem length_insertionSortDesc {α : Type*} (key : α → ℚ) (l : List α) :
    (insertionSortDesc key l).length = l.length := by
  induction l with
  | nil => rfl
  | cons x xs ih => simp [insertionSortDesc, length_insertDesc, ih]

theorem mem_insertDesc {α : Type*} (key : α → ℚ) (x a : α) (l : List α) :
    a ∈ insertDesc key x l ↔ a = x ∨ a ∈ l := by
  induction l with
  | nil => simp [insertDesc]
  | cons y ys ih =>
    simp only [insertDesc]
    split
    · simp [List.mem_cons]
    · simp only [List.mem_cons, ih]
      tauto

theorem mem_insertionSortDesc {α : Type*} (key : α → ℚ) (a : α) (l : List α) :
    a ∈ insertionSortDesc key l ↔ a ∈ l := by
  induction l with
  | nil => simp [insertionSortDesc]
  | cons x xs ih => simp [insertionSortDesc, mem_insertDesc, ih]

theorem length_filter_isSome_add_isNone {α β : Type*} (l : List (α × Option β)) :
    (l.filter fun p => p.2.isSome).length + (l.filter fun p => p.2.isNone).length
      = l.length := by
  induction l with
  | nil => rfl
  | cons x xs ih =>
    rcases x with ⟨a, b⟩
    cases b <;> simp [List.filter_cons] <;> omega

/- ### Helper lemmas unfolding `calculate_staking_returns` -/

theorem calculate_staking_returns_zero_principal (env : PriceEnv) (a : ℝ) (d : ℤ) :
    calculate_staking_returns env 0 a d =
      Except.error "ZeroDivisionError: float division by zero" := by
  simp [calculate_staking_returns]

theorem calculate_staking_returns_ok (env : PriceEnv) (p a : ℝ) (d : ℤ) (hp : p ≠ 0) :
    calculate_staking_returns env p a d =
      Except.ok
        { initial_sol := p
          final_sol := p * (1 + a / 100 / 365) ^ ((365 : ℝ) * ((d : ℝ) / 365))
          sol_earned := p * (1 + a / 100 / 365) ^ ((365 : ℝ) * ((d : ℝ) / 365)) - p
          current_value_usd := p * get_current_sol_price env
          projected_value_usd :=
            p * (1 + a / 100 / 365) ^ ((365 : ℝ) * ((d : ℝ) / 365)) * get_current_sol_price env
          roi_percentage :=
            (p * (1 + a / 100 / 365) ^ ((365 : ℝ) * ((d : ℝ) / 365)) - p) / p * 100 } := by
  simp only [calculate_staking_returns]
  rw [if_neg hp]

/- ### Numeric bounds on the daily-compounding growth factor -/

theorem growth_pow_lower : (110515 : ℝ) / 100000 < ((3651 : ℝ) / 3650) ^ (365 : ℕ) := by
  rw [div_pow, div_lt_div_iff₀ (by norm_num) (by positivity)]
  exact_mod_cast (by decide : 110515 * 3650 ^ 365 < 3651 ^ 365 * 100000)

theorem growth_pow_upper : ((3651 : ℝ) / 3650) ^ (365 : ℕ) < (110517 : ℝ) / 100000 := by
  rw [div_pow, div_lt_div_iff₀ (by positivity) (by norm_num)]
  exact_mod_cast (by decide : 3651 ^ 365 * 100000 < 110517 * 3650 ^ 365)

theorem spec_final_amount_bounds :
    (11.0515 : ℝ) < spec_final_amount 10 10 365 ∧
      spec_final_amount 10 10 365 < 11.0517 := by
  have hbase : (1 : ℝ) + 10 / 100 / 365 = 3651 / 3650 := by norm_num
  have hexp : (365 : ℝ) * (((365 : ℤ) : ℝ) / 365) = ((365 : ℕ) : ℝ) := by norm_num
  have hpow : spec_final_amount 10 10 365 = 10 * ((3651 : ℝ) / 3650) ^ (365 : ℕ) := by
    rw [spec_final_amount, hbase, hexp, Real.rpow_natCast]
  constructor
  · rw [hpow]
    nlinarith [growth_pow_lower]
  · rw [hpow]
    nlinarith [growth_pow_upper]

/- ### Claim theorems: returns projector and APY calculator -/

/-- C4: for every inflation rate `i` and commission `c`,
`calculate_apy i c = i * (1 - c) / 0.8 * 100`, with no bounds clamping on
either input; in particular `calculate_apy 0.08 0 = 10`,
`calculate_apy 0.08 0.10 = 9` and `calculate_apy 0.08 0.05 = 9.5`. -/
theorem calculate_apy_formula :
    (∀ i c : ℚ, calculate_apy i c = i * (1 - c) / 0.8 * 100) ∧
    calculate_apy 0.08 0 = 10 ∧
    calculate_apy 0.08 0.10 = 9 ∧
    calculate_apy 0.08 0.05 = 9.5 := by
  refine ⟨fun i c => rfl, ?_, ?_, ?_⟩ <;> norm_num [calculate_apy]

/-- C3: with principal `0`, `calculate_staking_returns` fails with a domain
error at the ROI division (Python's `ZeroDivisionError`) for every APY,
horizon and price environment, and hence returns no result at all — in
particular no NaN or infinite result. -/
theorem zero_principal_fails_roi (env : PriceEnv) (a : ℝ) (d : ℤ) :
    calculate_staking_returns env 0 a d =
      Except.error "ZeroDivisionError: float division by zero" :=
  calculate_staking_returns_zero_principal env a d

/-- C1 counterexample: at principal `0` (with APY `10`, horizon `365`,
price `100`) the function raises rather than returning a record, so the
claim's universal quantification over every principal fails. -/
theorem returns_record_fails_at_zero_principal :
    calculate_staking_returns ⟨some 100⟩ 0 10 365 =
      Except.error "ZeroDivisionError: float division by zero" :=
  calculate_staking_returns_zero_principal ⟨some 100⟩ 10 365

/-- C1 (amended to nonzero principal): for every principal `p ≠ 0`, APY
percentage `a`, horizon `d` and price `c`, the returned record has
`final = p * (1 + (a/100)/365) ^ (365 * (d/365))`, `earned = final - p`,
`current_value = p * c`, `projected_value = final * c` and
`roi = (earned / p) * 100`; and at `p = 10`, `a = 10`, `d = 365`, `c = 100`
the values are within `±0.01` of `11.0516`, `1.0516`, `1000`, `1105.16` and
`10.516` respectively. -/
theorem calculate_staking_returns_formula (p a c : ℝ) (d : ℤ) (hp : p ≠ 0) :
    calculate_staking_returns ⟨some c⟩ p a d =
      Except.ok
        { initial_sol := p
          final_sol := spec_final_amount p a d
          sol_earned := spec_final_amount p a d - p
          current_value_usd := p * c
          projected_value_usd := spec_final_amount p a d * c
          roi_percentage := (spec_final_amount p a d - p) / p * 100 } ∧
    |spec_final_amount 10 10 365 - 11.0516| ≤ 0.01 ∧
    |(spec_final_amount 10 10 365 - 10) - 1.0516| ≤ 0.01 ∧
    (10 : ℝ) * 100 = 1000 ∧
    |spec_final_amount 10 10 365 * 100 - 1105.16| ≤ 0.01 ∧
    |(spec_final_amount 10 10 365 - 10) / 10 * 100 - 10.516| ≤ 0.01 := by
  obtain ⟨hlo, hhi⟩ := spec_final_amount_bounds
  refine ⟨?_, ?_, ?_, by norm_num, ?_, ?_⟩
  · rw [calculate_staking_returns_ok _ p a d hp]
    simp [get_current_sol_price, spec_final_amount]
  · rw [abs_le]
    constructor <;> nlinarith
  · rw [abs_le]
    constructor <;> nlinarith
  · rw [abs_le]
    constructor <;> nlinarith
  · rw [abs_le]
    constructor <;> nlinarith

/-- C1 witness: the amended theorem applied at the concrete input
`p = 10`, `a = 10`, `d = 365`, `c = 100`. -/
theorem calculate_staking_returns_formula_witness :
    calculate_staking_returns ⟨some 100⟩ 10 10 365 =
      Except.ok
        { initial_sol := 10
          final_sol := spec_final_amount 10 10 365
          sol_earned := spec_final_amount 10 10 365 - 10
          current_value_usd := 10 * 100
          projected_value_usd := spec_final_amount 10 10 365 * 100
          roi_percentage := (spec_final_amount 10 10 365 - 10) / 10 * 100 } ∧
    |spec_final_amount 10 10 365 - 11.0516| ≤ 0.01 ∧
    |(spec_final_amount 10 10 365 - 10) - 1.0516| ≤ 0.01 ∧
    (10 : ℝ) * 100 = 1000 ∧
    |spec_final_amount 10 10 365 * 100 - 1105.16| ≤ 0.01 ∧
    |(spec_final_amount 10 10 365 - 10) / 10 * 100 - 10.516| ≤ 0.01 :=
  calculate_staking_returns_formula 10 10 100 365 (by norm_num)

/-- C8 counterexample: at principal `0` (APY `5`, horizon `0`, price `1`)
the function raises `ZeroDivisionError` instead of returning `final = 0`,
so the claim's universal quantification over every principal fails. -/
theorem zero_horizon_fails_at_zero_principal :
    calculate_staking_returns ⟨some 1⟩ 0 5 0 =
      Except.error "ZeroDivisionError: float division by zero" :=
  calculate_staking_returns_zero_principal ⟨some 1⟩ 5 0

/-- C8 (amended to nonzero principal): for every principal `p ≠ 0`, APY `a`
and price `c`, a zero horizon returns `final` exactly equal to `p` and
`earned` exactly equal to `0`. -/
theorem zero_horizon_identity (p a c : ℝ) (hp : p ≠ 0) :
    ∃ rec : ReturnsProjection,
      calculate_staking_returns ⟨some c⟩ p a 0 = Except.ok rec ∧
      rec.final_sol = p ∧ rec.sol_earned = 0 := by
  refine ⟨_, calculate_staking_returns_ok ⟨some c⟩ p a 0 hp, ?_, ?_⟩ <;>
    norm_num [Real.rpow_zero]

/-- C8 witness: the amended theorem applied at `p = 10`, `a = 7`, `c = 3`. -/
theorem zero_horizon_identity_witness :
    ∃ rec : ReturnsProjection,
      calculate_staking_returns ⟨some 3⟩ 10 7 0 = Except.ok rec ∧
      rec.final_sol = 10 ∧ rec.sol_earned = 0 :=
  zero_horizon_identity 10 7 3 (by norm_num)

/-- C9: for nonnegative APY, horizon and price and positive principal, the
returned record satisfies `final ≥ p ≥ 0` and `earned ≥ 0`. -/
theorem returns_nonneg (p a c : ℝ) (d : ℤ) (hp : 0 < p) (ha : 0 ≤ a)
    (hd : 0 ≤ d) (hc : 0 ≤ c) :
    ∃ rec : ReturnsProjection,
      calculate_staking_returns ⟨some c⟩ p a d = Except.ok rec ∧
      0 ≤ p ∧ p ≤ rec.final_sol ∧ 0 ≤ rec.sol_earned := by
  have hbase : (1 : ℝ) ≤ 1 + a / 100 / 365 := by
    have h0 : (0 : ℝ) ≤ a / 100 / 365 := by positivity
    linarith
  have hdR : (0 : ℝ) ≤ (d : ℝ) := by exact_mod_cast hd
  have hE : (0 : ℝ) ≤ (365 : ℝ) * ((d : ℝ) / 365) := by positivity
  have h1 : (1 : ℝ) ≤ (1 + a / 100 / 365) ^ ((365 : ℝ) * ((d : ℝ) / 365)) := by
    calc (1 : ℝ) = (1 + a / 100 / 365) ^ (0 : ℝ) := (Real.rpow_zero _).symm
      _ ≤ _ := Real.rpow_le_rpow_of_exponent_le hbase hE
  have hfin : p ≤ p * (1 + a / 100 / 365) ^ ((365 : ℝ) * ((d : ℝ) / 365)) :=
    le_mul_of_one_le_right hp.le h1
  exact ⟨_, calculate_staking_returns_ok ⟨some c⟩ p a d hp.ne', hp.le, hfin,
    sub_nonneg.mpr hfin⟩

/-- C9 witness: the theorem applied at `p = 2`, `a = 0`, `d = 1`, `c = 0`. -/
theorem returns_nonneg_witness :
    ∃ rec : ReturnsProjection,
      calculate_staking_returns ⟨some 0⟩ 2 0 1 = Except.ok rec ∧
      (0 : ℝ) ≤ 2 ∧ 2 ≤ rec.final_sol ∧ 0 ≤ rec.sol_earned :=
  returns_nonneg 2 0 0 1 (by norm_num) le_rfl (by decide) le_rfl

/-- C5 counterexample: two calls with identical Python arguments
(principal `10`, APY `10`, horizon `365`) but different environments give
different outputs, so the current price is obtained by an internal fetch
rather than taken as an explicit input of the function. -/
theorem price_is_fetched_internally :
    calculate_staking_returns ⟨some 1⟩ 10 10 365 ≠
      calculate_staking_returns ⟨some 2⟩ 10 10 365 := by
  rw [calculate_staking_returns_ok _ 10 10 365 (by norm_num),
    calculate_staking_returns_ok _ 10 10 365 (by norm_num)]
  intro h
  rw [Except.ok.injEq, ReturnsProjection.mk.injEq] at h
  have h4 := h.2.2.2.1
  simp only [get_current_sol_price, Option.getD_some] at h4
  norm_num at h4

/-- C5 (amended): the price is fetched internally by
`get_current_sol_price`; holding the fetched price fixed, the computation is
deterministic — two environments yielding the same price give bit-for-bit
identical outputs for identical principal, APY and horizon. -/
theorem deterministic_given_price (env₁ env₂ : PriceEnv) (p a : ℝ) (d : ℤ)
    (h : get_current_sol_price env₁ = get_current_sol_price env₂) :
    calculate_staking_returns env₁ p a d = calculate_staking_returns env₂ p a d := by
  by_cases hp : p = 0
  · subst hp
    rw [calculate_staking_returns_zero_principal, calculate_staking_returns_zero_principal]
  · rw [calculate_staking_returns_ok _ p a d hp, calculate_staking_returns_ok _ p a d hp, h]

/-- C5 witness: the amended theorem applied to the environments `⟨none⟩` and
`⟨some 0⟩`, which yield the same fetched price `0`. -/
theorem deterministic_given_price_witness :
    calculate_staking_returns ⟨none⟩ 3 7 30 = calculate_staking_returns ⟨some 0⟩ 3 7 30 :=
  deterministic_given_price ⟨none⟩ ⟨some 0⟩ 3 7 30 rfl

/-- C10: the SOL-denominated outputs (`initial_sol`, `final_sol`,
`sol_earned`, `roi_percentage`) do not depend on the price environment: two
runs with identical principal, APY and horizon agree on those four fields
whatever prices the two environments yield; only the two USD fields read the
price. -/
theorem sol_fields_price_independent (env₁ env₂ : PriceEnv) (p a : ℝ) (d : ℤ) :
    (calculate_staking_returns env₁ p a d).map
        (fun rec => (rec.initial_sol, rec.final_sol, rec.sol_earned, rec.roi_percentage)) =
    (calculate_staking_returns env₂ p a d).map
        (fun rec => (rec.initial_sol, rec.final_sol, rec.sol_earned, rec.roi_percentage)) := by
  by_cases hp : p = 0
  · subst hp
    rw [calculate_staking_returns_zero_principal, calculate_staking_returns_zero_principal]
  · rw [calculate_staking_returns_ok _ p a d hp, calculate_staking_returns_ok _ p a d hp]
    rfl

/- ### Claim theorems: validator ranker -/

/-- C2 counterexample: on the input `[eligible, missing-creditScore]` with
`top_n = 2`, the output has length `2`, not `min 2 1 = 1`, and the record
missing `creditScore` appears in it (with score NaN, modelled `none`):
`sort_values(...).head(top_n)` keeps NaN-scored rows, it does not drop them. -/
theorem ranker_keeps_ineligible_rows :
    (find_optimal_validators
        [{ name := "a", commission := some (.num 5), apy := some (.num 8),
           creditScore := some (.num 90) },
         { name := "b", commission := some (.num 5), apy := some (.num 8),
           creditScore := none }] 2).length ≠ min 2 1 ∧
    ({ name := "b", commission := some (.num 5), apy := some (.num 8),
       creditScore := none : ValidatorRecord }, (none : Option ℚ)) ∈
      find_optimal_validators
        [{ name := "a", commission := some (.num 5), apy := some (.num 8),
           creditScore := some (.num 90) },
         { name := "b", commission := some (.num 5), apy := some (.num 8),
           creditScore := none }] 2 := by
  decide

/-- C2 (amended): for a nonempty input in which each of the three required
columns is present in some record, the output length is
`min top_n (number of records)`; every ineligible (NaN-scored) row comes
after every eligible row, so whenever `top_n` does not exceed the eligible
count the output consists of eligible rows only; and a record whose
`creditScore` is missing or non-numeric always gets score NaN. -/
theorem ranker_output_shape (validators : List ValidatorRecord) (top_n : ℕ)
    (hne : validators.isEmpty = false)
    (hc : (validators.any fun r => r.commission.isSome) = true)
    (ha : (validators.any fun r => r.apy.isSome) = true)
    (hs : (validators.any fun r => r.creditScore.isSome) = true) :
    (find_optimal_validators validators top_n).length = min top_n validators.length ∧
    (find_optimal_validators validators top_n).Pairwise
      (fun x y => x.2 = none → y.2 = none) ∧
    (top_n ≤ ((validators.map fun r => (r, score r)).filter fun p => p.2.isSome).length →
      ∀ q ∈ find_optimal_validators validators top_n, q.2.isSome = true) ∧
    (∀ r : ValidatorRecord, toNumeric r.creditScore = none → score r = none) := by
  have hunf : find_optimal_validators validators top_n =
      (insertionSortDesc (fun p => (p.2.getD 0 : ℚ))
          ((validators.map fun r => (r, score r)).filter fun p => p.2.isSome) ++
        ((validators.map fun r => (r, score r)).filter fun p => p.2.isNone)).take top_n := by
    simp only [find_optimal_validators, hne, hc, ha, hs, Bool.and_self, Bool.false_eq_true,
      if_false, if_true]
  have hmemA : ∀ q ∈ insertionSortDesc (fun p => (p.2.getD 0 : ℚ))
      ((validators.map fun r => (r, score r)).filter fun p => p.2.isSome),
      q.2.isSome = true := by
    intro q hq
    exact (List.mem_filter.mp ((mem_insertionSortDesc _ _ _).mp hq)).2
  refine ⟨?_, ?_, ?_, ?_⟩
  · rw [hunf, List.length_take, List.length_append, length_insertionSortDesc,
      length_filter_isSome_add_isNone, List.length_map]
  · rw [hunf]
    refine List.Pairwise.sublist (List.take_sublist _ _) ?_
    refine List.pairwise_append.mpr ⟨?_, ?_, ?_⟩
    · refine List.pairwise_of_forall_mem_list ?_
      intro x hx y _ hxnone
      have := hmemA x hx
      rw [hxnone] at this
      simp at this
    · refine List.pairwise_of_forall_mem_list ?_
      intro x _ y hy _
      exact Option.isNone_iff_eq_none.mp (List.mem_filter.mp hy).2
    · intro x _ y hy _
      exact Option.isNone_iff_eq_none.mp (List.mem_filter.mp hy).2
  · intro hn q hq
    rw [hunf, List.take_append_of_le_length (by rwa [length_insertionSortDesc])] at hq
    exact hmemA q (List.take_subset _ _ hq)
  · intro r h
    cases hA : toNumeric r.apy <;> cases hC : toNumeric r.commission <;>
      simp [score, hA, hC, h]

/-- C2 witness: the amended theorem applied to a one-record eligible input
with `top_n = 1`. -/
theorem ranker_output_shape_witness :
    (find_optimal_validators
        [{ name := "w", commission := some (.num 1), apy := some (.num 2),
           creditScore := some (.num 3) }] 1).length =
      min 1 [{ name := "w", commission := some (.num 1), apy := some (.num 2),
               creditScore := some (.num 3) : ValidatorRecord }].length ∧
    (find_optimal_validators
        [{ name := "w", commission := some (.num 1), apy := some (.num 2),
           creditScore := some (.num 3) }] 1).Pairwise
      (fun x y => x.2 = none → y.2 = none) ∧
    (1 ≤ (([{ name := "w", commission := some (.num 1), apy := some (.num 2),
              creditScore := some (.num 3) : ValidatorRecord }].map
            fun r => (r, score r)).filter fun p => p.2.isSome).length →
      ∀ q ∈ find_optimal_validators
          [{ name := "w", commission := some (.num 1), apy := some (.num 2),
             creditScore := some (.num 3) }] 1, q.2.isSome = true) ∧
    (∀ r : ValidatorRecord, toNumeric r.creditScore = none → score r = none) :=
  ranker_output_shape _ 1 rfl rfl rfl rfl

/-- C7: every eligible record's score is
`apy * 0.4 + (100 - commission) * 0.3 + creditScore * 0.3`; consequently for
two records with identical apy and creditScore and commissions `0` and `10`,
the zero-commission record scores strictly higher and comes first in the
ranked output. -/
theorem score_formula_and_zero_commission_first :
    (∀ (r : ValidatorRecord) (c a s : ℚ),
        toNumeric r.commission = some c → toNumeric r.apy = some a →
        toNumeric r.creditScore = some s →
        score r = some (a * 0.4 + (100 - c) * 0.3 + s * 0.3)) ∧
    (∀ a s : ℚ,
        ∃ x y : ℚ,
          score { name := "zero", commission := some (.num 0), apy := some (.num a),
                  creditScore := some (.num s) } = some x ∧
          score { name := "ten", commission := some (.num 10), apy := some (.num a),
                  creditScore := some (.num s) } = some y ∧
          y < x ∧
          find_optimal_validators
              [{ name := "ten", commission := some (.num 10), apy := some (.num a),
                 creditScore := some (.num s) },
               { name := "zero", commission := some (.num 0), apy := some (.num a),
                 creditScore := some (.num s) }] 2 =
            [({ name := "zero", commission := some (.num 0), apy := some (.num a),
                creditScore := some (.num s) }, some x),
             ({ name := "ten", commission := some (.num 10), apy := some (.num a),
                creditScore := some (.num s) }, some y)]) := by
  constructor
  · intro r c a s hcm hap hcs
    simp only [score, hcm, hap, hcs]
  · intro a s
    refine ⟨a * 0.4 + (100 - 0) * 0.3 + s * 0.3, a * 0.4 + (100 - 10) * 0.3 + s * 0.3,
      rfl, rfl, by linarith, ?_⟩
    have hnot : ¬ ((a * 0.4 + (100 - 0) * 0.3 + s * 0.3 : ℚ) <
        a * 0.4 + (100 - 10) * 0.3 + s * 0.3) := by linarith
    simp only [find_optimal_validators, insertionSortDesc, insertDesc, score, toNumeric,
      List.isEmpty, List.any, List.map, List.filter, Option.isSome, Option.isNone,
      Bool.and_self, if_true, List.append_nil, Option.getD_some, Bool.false_eq_true,
      if_false, Bool.true_or, Bool.or_true, Bool.or_false, Bool.or_self]
    rw [if_neg hnot]
    rfl

/-- C7 witness: the score-formula part applied to a concrete eligible
record. -/
theorem score_formula_and_zero_commission_first_witness :
    score { name := "w", commission := some (.num 5), apy := some (.num 8),
            creditScore := some (.num 90) } =
      some (8 * 0.4 + (100 - 5) * 0.3 + 90 * 0.3) :=
  score_formula_and_zero_commission_first.1 _ 5 8 90 rfl rfl rfl
